import Mathlib

/-!
Shallow embedding of `src/echo.py` (a wake-word voice assistant) and proofs
about its command classification, history log, speak/listen wrappers,
handlers and dispatch loop.

Modelling conventions:
* Python strings are Lean `String`s; `str.lower()`, `str.strip()`,
  `str.replace(old, new)` and the `in` containment test are re-implemented
  below (`pyLower`, `pyStrip`, `pyReplace`, `strContains`) following Python
  semantics on the inputs the program uses.
* The TTS engine's mutable `rate` and `volume` properties live in the state.
  The only volume values the program ever assigns are the exact decimals
  0.8, 0.9 and 1.0, so volume is carried in integer tenths (8, 9, 10).
* Exceptions raised by external collaborators (the TTS sink, the speech
  recognizer, the HTTP client) are modelled by explicit oracle parameters:
  `ttsOk : Bool` (does `engine.runAndWait` complete without raising),
  `Option String` transcripts (`none` = timeout / unrecognized), and an
  `Option (Nat × Option (String × String))` weather response
  (`none` = network fault; otherwise status code and an optional parsed
  body of temperature text and condition text, `none` body = parse fault).
  `engine.say` enqueues the text before `runAndWait` can fault, so the text
  handed to the sink is recorded in `sinkSay` in both cases.
* Side effects are recorded as traces in the state: `sinkSay` (texts given
  to `engine.say`), `webOpens` (`webbrowser.open` URLs), `osRuns`
  (`os.system` commands), `httpGets` (HTTP GET URLs).
* `np.random.choice(wake_responses)` is modelled by passing the chosen
  acknowledgement string as an oracle parameter.
-/

namespace Echo

/-- Python `str.lower()` (the program only lowercases ASCII transcripts). -/
def pyLower (s : String) : String := ⟨s.data.map Char.toLower⟩

/-- Python `str.strip()`: drop whitespace from both ends. -/
def pyStrip (s : String) : String :=
  ⟨((s.data.dropWhile Char.isWhitespace).reverse.dropWhile Char.isWhitespace).reverse⟩

/-- Helper for Python's `in` substring test: does the needle occur in the hay? -/
def containsAux : List Char → List Char → Bool
  | [], n => n.isEmpty
  | h :: t, n => n.isPrefixOf (h :: t) || containsAux t n

/-- Python `needle in hay` for strings. -/
def strContains (hay needle : String) : Bool := containsAux hay.data needle.data

/-- Fuel-driven core of Python `str.replace`: replace non-overlapping
occurrences left to right.  The fuel is the length of the subject string,
which bounds the number of steps since each step consumes at least one
character (the program never replaces an empty pattern). -/
def replaceFuel : Nat → List Char → List Char → List Char → List Char
  | 0, s, _, _ => s
  | _ + 1, [], _, _ => []
  | n + 1, c :: rest, pat, rep =>
    if !pat.isEmpty && pat.isPrefixOf (c :: rest) then
      rep ++ replaceFuel n ((c :: rest).drop pat.length) pat rep
    else c :: replaceFuel n rest pat rep

/-- Python `s.replace(pat, rep)`. -/
def pyReplace (s pat rep : String) : String :=
  ⟨replaceFuel s.data.length s.data pat.data rep.data⟩

/-- Python `lst[-k:]`, as used by the history trim: for `k = 0` Python
returns the whole list, otherwise the last `k` elements. -/
def pyLastSlice {α : Type} (l : List α) (k : Nat) : List α :=
  if k = 0 then l else l.drop (l.length - k)

/-- The `speaker` field of a history entry. -/
inductive Speaker
  | user
  | assistant
deriving DecidableEq, Repr

/-- One element of `self.history` (`timestamp` is `datetime.now().isoformat()`,
modelled as an abstract instant). -/
structure HistoryEntry where
  timestamp : Nat
  speaker : Speaker
  text : String
  emotion : Option String
deriving DecidableEq, Repr

/-- The `Config` dataclass after `__post_init__` has run. -/
structure Config where
  name : String
  speech_rate : Int
  voice_id : Nat
  hotword : String
  wake_responses : List String
  weather_api_key : String
  max_history : Nat
deriving DecidableEq, Repr

/-- `Config.__post_init__`: `wake_responses` is replaced by the default list
only when the provided value is `None`. -/
def postInitWakeResponses : Option (List String) → List String
  | none => ["Yes?", "I'm here!", "How can I assist?"]
  | some l => l

/-- Construct a `Config` from field values as `Config(**data)` does,
running `__post_init__` on `wake_responses` (`none` models both an absent
key, which leaves the dataclass default `None`, and an explicit null). -/
def Config.ofData (name : String) (speech_rate : Int) (voice_id : Nat)
    (hotword : String) (wake_responses : Option (List String))
    (weather_api_key : String) (max_history : Nat) : Config :=
  { name := name, speech_rate := speech_rate, voice_id := voice_id,
    hotword := hotword,
    wake_responses := postInitWakeResponses wake_responses,
    weather_api_key := weather_api_key, max_history := max_history }

/-- `Config()` with every dataclass default. -/
def defaultConfig : Config := Config.ofData "User" 170 0 "echo" none "" 100

/-- The mutable state of an `EchoAI` instance together with the side-effect
traces of its collaborators.  `engineRate` and `engineVolumeTenths` are the
TTS engine's `rate` and `volume` properties (volume in tenths). -/
structure EchoState where
  config : Config
  engineRate : Int
  engineVolumeTenths : Nat
  history : List HistoryEntry
  running : Bool
  sinkSay : List String
  webOpens : List String
  osRuns : List String
  httpGets : List String
deriving DecidableEq, Repr

/-- `EchoAI.speak`.  `ttsOk = false` means `engine.runAndWait` raises (the
sink faults before the utterance completes); the `except` clause then
swallows the exception, so the reset of rate/volume and the history append
are skipped.  `now` is the timestamp of the appended entry. -/
def speak (s : EchoState) (text : String) (emotion : Option String)
    (ttsOk : Bool) (now : Nat) : EchoState :=
  let original_rate := s.config.speech_rate
  let rate1 : Int :=
    if emotion = some "happy" then original_rate + 20
    else if emotion = some "sad" then original_rate - 20
    else s.engineRate
  let volume : Nat :=
    if emotion = some "happy" then 10
    else if emotion = some "sad" then 8
    else 9
  let s1 := { s with engineRate := rate1, engineVolumeTenths := volume,
                     sinkSay := s.sinkSay ++ [text] }
  if ttsOk then
    let s2 := { s1 with engineRate := original_rate, engineVolumeTenths := 9 }
    let hist := s2.history ++ [⟨now, Speaker.assistant, text, emotion⟩]
    { s2 with
      history :=
        if s.config.max_history < hist.length then
          pyLastSlice hist s.config.max_history
        else hist }
  else s1

/-- `EchoAI.listen`.  Oracle parameters: `t1` is the first transcription
(`none` = timeout or unintelligible), `ack` the acknowledgement chosen by
`np.random.choice`, `t2` the second transcription, `ttsOk` the sink health
for the acknowledgement utterance, `now1`/`now2` the two timestamps.
Returns the updated state and the recognized command, if any. -/
def listen (s : EchoState) (t1 : Option String) (ack : String)
    (t2 : Option String) (ttsOk : Bool) (now1 now2 : Nat) :
    EchoState × Option String :=
  match t1 with
  | none => (s, none)
  | some raw =>
    let text := pyLower raw
    if strContains text s.config.hotword then
      let s1 := speak s ack none ttsOk now1
      match t2 with
      | none => (s1, none)
      | some raw2 =>
        let command := pyLower raw2
        ({ s1 with
            history := s1.history ++ [⟨now2, Speaker.user, command, none⟩] },
         some command)
    else (s, none)

/-- The intents of `process_command`'s dispatch chain. -/
inductive Intent
  | search
  | time
  | weather
  | openApp
  | exit
  | unknown
deriving DecidableEq, Repr

/-- The exit keywords of `process_command`. -/
def exitWords : List String := ["exit", "quit", "goodbye"]

/-- The ordered keyword-containment chain of `process_command`, applied to
the already lower-cased and stripped command. -/
def intentOf (c : String) : Intent :=
  if strContains c "search" then Intent.search
  else if strContains c "time" then Intent.time
  else if strContains c "weather" then Intent.weather
  else if strContains c "open" then Intent.openApp
  else if exitWords.any (fun w => strContains c w) then Intent.exit
  else Intent.unknown

/-- Classification part of `process_command`: lower-case and strip the
command, return no intent when the result is empty (early `return`),
otherwise the first matching intent. -/
def classify (command : String) : Option Intent :=
  let c := pyStrip (pyLower command)
  if c = "" then none else some (intentOf c)

/-- `EchoAI.handle_search`. -/
def handle_search (s : EchoState) (command : String) (ttsOk : Bool)
    (now : Nat) : EchoState :=
  let query := pyStrip (pyReplace (pyReplace command "search for" "") "search" "")
  if query = "" then
    speak s "What would you like me to search for?" none ttsOk now
  else
    let s1 := { s with
      webOpens := s.webOpens ++ ["https://www.google.com/search?q=" ++ query] }
    speak s1 ("Searching for " ++ query) none ttsOk now

/-- `EchoAI.handle_time` (`timeStr` is the formatted current time). -/
def handle_time (s : EchoState) (timeStr : String) (ttsOk : Bool)
    (now : Nat) : EchoState :=
  speak s ("The current time is " ++ timeStr) none ttsOk now

/-- `EchoAI.handle_weather`.  `resp` is the HTTP oracle: `none` = the GET
(or the session) raises; `some (status, body)` = a response with that
status, whose JSON body parses to temperature text and condition text when
`body = some (temp, cond)` and raises during parsing when `body = none`. -/
def handle_weather (s : EchoState) (command : String)
    (resp : Option (Nat × Option (String × String))) (ttsOk : Bool)
    (now : Nat) : EchoState :=
  let location0 := pyStrip (pyReplace (pyReplace command "weather in" "") "weather" "")
  let location := if location0 = "" then "New York" else location0
  if s.config.weather_api_key = "" then
    speak s "Weather API key not configured." none ttsOk now
  else
    let url := "https://api.weatherapi.com/v1/current.json?key=" ++
      s.config.weather_api_key ++ "&q=" ++ location
    let s1 := { s with httpGets := s.httpGets ++ [url] }
    match resp with
    | none => speak s1 "I couldn't retrieve the weather information." none ttsOk now
    | some (status, body) =>
      if status = 200 then
        match body with
        | some (temp, condition) =>
          speak s1 ("The weather in " ++ location ++ " is " ++ condition ++
            " with a temperature of " ++ temp ++ " degrees Celsius.") none ttsOk now
        | none =>
          speak s1 "I couldn't retrieve the weather information." none ttsOk now
      else
        speak s1 ("Sorry, I couldn't get the weather for " ++ location ++ ".")
          none ttsOk now

/-- `EchoAI.handle_open`. -/
def handle_open (s : EchoState) (command : String) (ttsOk : Bool)
    (now : Nat) : EchoState :=
  if strContains command "browser" then
    let s1 := { s with webOpens := s.webOpens ++ ["https://www.google.com"] }
    speak s1 "Opening web browser" none ttsOk now
  else if strContains command "notepad" then
    let s1 := { s with osRuns := s.osRuns ++ ["notepad.exe"] }
    speak s1 "Opening Notepad" none ttsOk now
  else
    speak s "I can only open browser or notepad at the moment." none ttsOk now

/-- `EchoAI.shutdown`: speak a farewell, then clear the running flag. -/
def shutdown (s : EchoState) (ttsOk : Bool) (now : Nat) : EchoState :=
  let s1 := speak s "Goodbye!" none ttsOk now
  { s1 with running := false }

/-- All oracle inputs one dispatch-loop iteration can consume. -/
structure Env where
  t1 : Option String
  ack : String
  t2 : Option String
  ttsOk : Bool
  httpResp : Option (Nat × Option (String × String))
  timeStr : String
  now : Nat
deriving Repr

/-- `EchoAI.process_command`: lower-case and strip, return on empty,
otherwise dispatch on the first matching keyword.  No handler lets an
exception escape in the model (each catches its collaborators' faults), so
the outer `except` branch is unreachable. -/
def process_command (s : EchoState) (command : String) (e : Env) : EchoState :=
  let c := pyStrip (pyLower command)
  match classify command with
  | none => s
  | some Intent.search => handle_search s c e.ttsOk e.now
  | some Intent.time => handle_time s e.timeStr e.ttsOk e.now
  | some Intent.weather => handle_weather s c e.httpResp e.ttsOk e.now
  | some Intent.openApp => handle_open s c e.ttsOk e.now
  | some Intent.exit => shutdown s e.ttsOk e.now
  | some Intent.unknown =>
      speak s "I'm not sure how to handle that command." none e.ttsOk e.now

/-- The `while self.running` loop of `EchoAI.run`, with explicit fuel and a
stream of per-iteration oracles.  Returns the final state and the number of
`listen` calls performed. -/
def runLoop : Nat → (Nat → Env) → Nat → EchoState → EchoState × Nat
  | 0, _, _, s => (s, 0)
  | fuel + 1, envs, i, s =>
    if s.running then
      let e := envs i
      let p := listen s e.t1 e.ack e.t2 e.ttsOk e.now (e.now + 1)
      let s2 :=
        match p.2 with
        | some c => process_command p.1 c e
        | none => p.1
      let r := runLoop fuel envs (i + 1) s2
      (r.1, r.2 + 1)
    else (s, 0)

/-- `EchoAI.run`: greet, then loop. -/
def run (fuel : Nat) (envs : Nat → Env) (ttsOk : Bool) (now : Nat)
    (s : EchoState) : EchoState × Nat :=
  runLoop fuel envs 0
    (speak s ("Hello " ++ s.config.name ++ ", how can I assist you today?")
      none ttsOk now)

/-- A freshly initialized `EchoAI` under the default configuration:
`engineRate` is set to `speech_rate` by `init_speech_engine`, the history is
empty and the assistant is running. -/
def sampleState : EchoState :=
  { config := defaultConfig, engineRate := 170, engineVolumeTenths := 9,
    history := [], running := true, sinkSay := [], webOpens := [],
    osRuns := [], httpGets := [] }

/-- A state whose history is at capacity under `max_history = 1`. -/
def cappedState : EchoState :=
  { sampleState with
    config := { defaultConfig with max_history := 1 },
    history := [⟨0, Speaker.assistant, "hi", none⟩] }

/-- A state with `max_history = 1` and an empty history. -/
def oneSlotState : EchoState :=
  { sampleState with config := { defaultConfig with max_history := 1 } }

/-- A state whose history already holds one earlier user entry. -/
def preState : EchoState :=
  { sampleState with history := [⟨5, Speaker.user, "earlier", none⟩] }

/-- A fixed oracle environment for one loop iteration. -/
def sampleEnv : Env :=
  { t1 := some "echo", ack := "Yes?", t2 := some "goodbye", ttsOk := true,
    httpResp := none, timeStr := "10:00 AM", now := 0 }

/-- The constant oracle stream. -/
def constEnv : Nat → Env := fun _ => sampleEnv

theorem speak_running (s : EchoState) (text : String) (emotion : Option String)
    (ttsOk : Bool) (now : Nat) :
    (speak s text emotion ttsOk now).running = s.running := by
  cases ttsOk <;> simp [speak]

theorem speak_sinkSay (s : EchoState) (text : String) (emotion : Option String)
    (ttsOk : Bool) (now : Nat) :
    (speak s text emotion ttsOk now).sinkSay = s.sinkSay ++ [text] := by
  cases ttsOk <;> simp [speak]

theorem speak_httpGets (s : EchoState) (text : String) (emotion : Option String)
    (ttsOk : Bool) (now : Nat) :
    (speak s text emotion ttsOk now).httpGets = s.httpGets := by
  cases ttsOk <;> simp [speak]

theorem speak_webOpens (s : EchoState) (text : String) (emotion : Option String)
    (ttsOk : Bool) (now : Nat) :
    (speak s text emotion ttsOk now).webOpens = s.webOpens := by
  cases ttsOk <;> simp [speak]

theorem speak_history_fault (s : EchoState) (text : String)
    (emotion : Option String) (now : Nat) :
    (speak s text emotion false now).history = s.history := by
  simp [speak]

theorem speak_history_ok (s : EchoState) (text : String)
    (emotion : Option String) (now : Nat) :
    (speak s text emotion true now).history =
      if s.config.max_history < s.history.length + 1 then
        pyLastSlice (s.history ++ [⟨now, Speaker.assistant, text, emotion⟩])
          s.config.max_history
      else s.history ++ [⟨now, Speaker.assistant, text, emotion⟩] := by
  simp [speak]

theorem speak_history_length_le (s : EchoState) (text : String)
    (emotion : Option String) (ttsOk : Bool) (now : Nat)
    (h1 : 1 ≤ s.config.max_history)
    (h2 : s.history.length ≤ s.config.max_history) :
    (speak s text emotion ttsOk now).history.length ≤ s.config.max_history := by
  cases ttsOk
  · simpa [speak_history_fault] using h2
  · rw [speak_history_ok]
    split
    · next hlt =>
      rw [pyLastSlice, if_neg (by omega)]
      simp only [List.length_drop, List.length_append, List.length_cons,
        List.length_nil]
      omega
    · next hle =>
      simp only [List.length_append, List.length_cons, List.length_nil]
      omega

theorem speak_drops_oldest (s : EchoState) (text : String)
    (emotion : Option String) (now : Nat)
    (h1 : 1 ≤ s.config.max_history)
    (h2 : s.history.length = s.config.max_history) :
    (speak s text emotion true now).history =
      s.history.tail ++ [⟨now, Speaker.assistant, text, emotion⟩] := by
  rw [speak_history_ok, if_pos (by omega)]
  rw [pyLastSlice, if_neg (by omega)]
  have hdrop : s.history.length + 1 - s.config.max_history = 1 := by omega
  simp only [List.length_append, List.length_cons, List.length_nil,
    Nat.add_zero, hdrop]
  obtain ⟨a, t, hh⟩ : ∃ a t, s.history = a :: t := by
    cases hh : s.history with
    | nil => rw [hh] at h2; simp at h2; omega
    | cons a t => exact ⟨a, t, rfl⟩
  rw [hh]
  simp

theorem speak_history_concat (s : EchoState) (text : String)
    (emotion : Option String) (now : Nat) :
    ∃ p, (speak s text emotion true now).history =
      p ++ [⟨now, Speaker.assistant, text, emotion⟩] := by
  rw [speak_history_ok]
  split
  · next hlt =>
    rw [pyLastSlice]
    split
    · exact ⟨s.history, rfl⟩
    · next hk0 =>
      refine ⟨s.history.drop
        ((s.history ++ [(⟨now, Speaker.assistant, text, emotion⟩ : HistoryEntry)]).length
          - s.config.max_history), ?_⟩
      rw [List.drop_append_of_le_length]
      simp only [List.length_append, List.length_cons, List.length_nil]
      omega
  · exact ⟨s.history, rfl⟩

theorem listen_history_length_le (s : EchoState) (t1 : Option String)
    (ack : String) (t2 : Option String) (ttsOk : Bool) (now1 now2 : Nat)
    (h1 : 1 ≤ s.config.max_history)
    (h2 : s.history.length ≤ s.config.max_history) :
    ((listen s t1 ack t2 ttsOk now1 now2).1).history.length ≤
      s.config.max_history + 1 := by
  match t1 with
  | none => simpa [listen] using Nat.le_succ_of_le h2
  | some raw =>
    rw [listen]
    split
    · next hwake =>
      have hs1 : (speak s ack none ttsOk now1).history.length ≤
          s.config.max_history :=
        speak_history_length_le s ack none ttsOk now1 h1 h2
      match t2 with
      | none => simpa using Nat.le_succ_of_le hs1
      | some raw2 => simpa using hs1
    · next hwake => simpa using Nat.le_succ_of_le h2

theorem runLoop_stopped (fuel : Nat) (envs : Nat → Env) (i : Nat)
    (s : EchoState) (h : s.running = false) :
    (runLoop fuel envs i s).2 = 0 := by
  cases fuel <;> simp [runLoop, h]

theorem speak_history_length_restore (s : EchoState) (text : String)
    (emotion : Option String) (now : Nat)
    (h1 : 1 ≤ s.config.max_history) :
    (speak s text emotion true now).history.length ≤ s.config.max_history := by
  rw [speak_history_ok]
  split
  · next hlt =>
    rw [pyLastSlice, if_neg (by omega)]
    simp only [List.length_drop, List.length_append, List.length_cons,
      List.length_nil]
    omega
  · next hle =>
    simp only [not_lt] at hle
    simpa using hle

theorem listen_wake_ok_length (s : EchoState) (u ack : String)
    (t2 : Option String) (now1 now2 : Nat)
    (h1 : 1 ≤ s.config.max_history)
    (hwake : strContains (pyLower u) s.config.hotword = true) :
    ((listen s (some u) ack t2 true now1 now2).1).history.length ≤
      s.config.max_history + 1 := by
  have hs1 : (speak s ack none true now1).history.length ≤
      s.config.max_history :=
    speak_history_length_restore s ack none now1 h1
  rw [listen]
  rw [if_pos hwake]
  match t2 with
  | none => simpa using Nat.le_succ_of_le hs1
  | some raw2 => simpa using hs1

theorem listen_wake_fault_length (s : EchoState) (u ack c2 : String)
    (now1 now2 : Nat)
    (hwake : strContains (pyLower u) s.config.hotword = true) :
    ((listen s (some u) ack (some c2) false now1 now2).1).history.length =
      s.history.length + 1 := by
  simp [listen, hwake, speak_history_fault]

/-- C4: when the TTS sink faults before the utterance completes
(`engine.runAndWait` raises), `speak` catches the fault, returns normally
(it is a total function of the state), and leaves the history list
unchanged: the history append sits after `runAndWait` inside the `try`
block, so no assistant entry is recorded for speech that was never
produced. -/
theorem C4_speak_fault_history_unchanged (s : EchoState) (text : String)
    (emotion : Option String) (now : Nat) :
    (speak s text emotion false now).history = s.history ∧
    (speak s text emotion false now).running = s.running := by
  exact ⟨speak_history_fault s text emotion now, speak_running s text emotion false now⟩

/-- C2 (code bug evaluation): a `speak` call with emotion `"happy"` whose
sink faults during `engine.runAndWait` returns with the engine's rate still
at `speech_rate + 20 = 190` and its volume still at `1.0` (10 tenths),
not at the baseline `(170, 0.9)`: the reset lies inside the `try` block
after `runAndWait`, so the caught exception skips it and the emotional
parameters leak into the next utterance. -/
theorem C2_fault_leaves_emotion_params :
    (speak sampleState "hello" (some "happy") false 0).engineRate = 190 ∧
    (speak sampleState "hello" (some "happy") false 0).engineVolumeTenths = 10 ∧
    sampleState.config.speech_rate = 170 ∧
    (190 : Int) ≠ 170 ∧ (10 : Nat) ≠ 9 := by decide

/-- C7: when no weather API key is configured (empty string), the weather
handler issues no HTTP GET and hands exactly the text
"Weather API key not configured." to the TTS sink. -/
theorem C7_no_api_key_no_network (s : EchoState) (command : String)
    (resp : Option (Nat × Option (String × String))) (ttsOk : Bool)
    (now : Nat) (h : s.config.weather_api_key = "") :
    (handle_weather s command resp ttsOk now).httpGets = s.httpGets ∧
    (handle_weather s command resp ttsOk now).sinkSay =
      s.sinkSay ++ ["Weather API key not configured."] := by
  simp only [handle_weather, h, if_true, reduceIte]
  exact ⟨speak_httpGets s _ none ttsOk now, speak_sinkSay s _ none ttsOk now⟩

/-- C7 witness: the default configuration has an empty key; a weather
command then performs no GET and speaks the configuration-missing line. -/
theorem C7_witness :
    sampleState.config.weather_api_key = "" ∧
    (handle_weather sampleState "weather" none true 0).httpGets =
      sampleState.httpGets ∧
    (handle_weather sampleState "weather" none true 0).sinkSay =
      sampleState.sinkSay ++ ["Weather API key not configured."] :=
  ⟨by decide,
   (C7_no_api_key_no_network sampleState "weather" none true 0 (by decide)).1,
   (C7_no_api_key_no_network sampleState "weather" none true 0 (by decide)).2⟩

/-- C8: on "search for cats" the search handler extracts the query "cats",
opens the web search for it and speaks "Searching for cats"; on "search"
alone it opens nothing and speaks the prompt asking what to search for. -/
theorem C8_search_handler (s : EchoState) (now : Nat) :
    (handle_search s "search for cats" true now).webOpens =
      s.webOpens ++ ["https://www.google.com/search?q=cats"] ∧
    (handle_search s "search for cats" true now).sinkSay =
      s.sinkSay ++ ["Searching for cats"] ∧
    (handle_search s "search" true now).webOpens = s.webOpens ∧
    (handle_search s "search" true now).sinkSay =
      s.sinkSay ++ ["What would you like me to search for?"] := by
  have h1 : pyStrip (pyReplace (pyReplace "search for cats" "search for" "")
      "search" "") = "cats" := by decide
  have h2 : pyStrip (pyReplace (pyReplace "search" "search for" "")
      "search" "") = "" := by decide
  refine ⟨?_, ?_, ?_, ?_⟩ <;>
    simp [handle_search, h1, h2, speak_webOpens, speak_sinkSay]

/-- C6: a `listen` call whose first transcription succeeds but whose
lower-cased transcript does not contain the configured wake word returns no
command and leaves the state (in particular the history) unchanged. -/
theorem C6_no_wake_no_command (s : EchoState) (u ack : String)
    (t2 : Option String) (ttsOk : Bool) (now1 now2 : Nat)
    (h : strContains (pyLower u) s.config.hotword = false) :
    listen s (some u) ack t2 ttsOk now1 now2 = (s, none) := by
  simp [listen, h]

/-- C6 witness: a transcript without the default wake word "echo" yields no
command and the untouched state. -/
theorem C6_witness :
    strContains (pyLower "Hello there") sampleState.config.hotword = false ∧
    listen sampleState (some "Hello there") "Yes?" (some "open browser")
      true 0 1 = (sampleState, none) :=
  ⟨by decide,
   C6_no_wake_no_command sampleState "Hello there" "Yes?"
     (some "open browser") true 0 1 (by decide)⟩

/-- C3: on a command whose lower-cased stripped form is non-empty,
classification returns exactly one intent (`classify` yields `some`), the
keywords are tested in the fixed order Search, Time, Weather, Open,
Exit ("exit"/"quit"/"goodbye"), Unknown with the first match winning, and
in particular any utterance containing "search" classifies as Search
regardless of the other keywords it contains. -/
theorem C3_classification_order (c : String)
    (h : pyStrip (pyLower c) ≠ "") :
    ((classify c).isSome = true) ∧
    (strContains (pyStrip (pyLower c)) "search" = true →
      classify c = some Intent.search) ∧
    (strContains (pyStrip (pyLower c)) "search" = false →
      strContains (pyStrip (pyLower c)) "time" = true →
      classify c = some Intent.time) ∧
    (strContains (pyStrip (pyLower c)) "search" = false →
      strContains (pyStrip (pyLower c)) "time" = false →
      strContains (pyStrip (pyLower c)) "weather" = true →
      classify c = some Intent.weather) ∧
    (strContains (pyStrip (pyLower c)) "search" = false →
      strContains (pyStrip (pyLower c)) "time" = false →
      strContains (pyStrip (pyLower c)) "weather" = false →
      strContains (pyStrip (pyLower c)) "open" = true →
      classify c = some Intent.openApp) ∧
    (strContains (pyStrip (pyLower c)) "search" = false →
      strContains (pyStrip (pyLower c)) "time" = false →
      strContains (pyStrip (pyLower c)) "weather" = false →
      strContains (pyStrip (pyLower c)) "open" = false →
      (strContains (pyStrip (pyLower c)) "exit" = true ∨
       strContains (pyStrip (pyLower c)) "quit" = true ∨
       strContains (pyStrip (pyLower c)) "goodbye" = true) →
      classify c = some Intent.exit) ∧
    (strContains (pyStrip (pyLower c)) "search" = false →
      strContains (pyStrip (pyLower c)) "time" = false →
      strContains (pyStrip (pyLower c)) "weather" = false →
      strContains (pyStrip (pyLower c)) "open" = false →
      strContains (pyStrip (pyLower c)) "exit" = false →
      strContains (pyStrip (pyLower c)) "quit" = false →
      strContains (pyStrip (pyLower c)) "goodbye" = false →
      classify c = some Intent.unknown) := by
  unfold classify
  rw [if_neg h]
  refine ⟨rfl, ?_, ?_, ?_, ?_, ?_, ?_⟩
  · intro h1
    simp [intentOf, h1]
  · intro h1 h2
    simp [intentOf, h1, h2]
  · intro h1 h2 h3
    simp [intentOf, h1, h2, h3]
  · intro h1 h2 h3 h4
    simp [intentOf, h1, h2, h3, h4]
  · intro h1 h2 h3 h4 h5
    simp only [intentOf, h1, h2, h3, h4, exitWords, List.any_cons,
      List.any_nil, Bool.or_false, Bool.false_eq_true, if_false]
    rcases h5 with h5 | h5 | h5 <;> simp [h5]
  · intro h1 h2 h3 h4 h5 h6 h7
    simp [intentOf, exitWords, h1, h2, h3, h4, h5, h6, h7]

/-- C3 witness: "search the weather" contains both "search" and "weather"
and classifies as Search by the fixed priority order. -/
theorem C3_witness :
    pyStrip (pyLower "search the weather") ≠ "" ∧
    classify "search the weather" = some Intent.search :=
  ⟨by decide,
   (C3_classification_order "search the weather" (by decide)).2.1 (by decide)⟩

/-- C5 (amended): `__post_init__` replaces `wake_responses` by the default
three-entry list exactly when the provided value is `None` — so a `Config`
built from defaults, or from persisted state lacking the key, has at least
one wake response — while any explicitly persisted list, including the
empty one, is retained as is. -/
theorem C5_wake_responses_post_init (name : String) (rate : Int) (voice : Nat)
    (hotword : String) (key : String) (maxh : Nat) (l : List String) :
    1 ≤ (Config.ofData name rate voice hotword none key maxh).wake_responses.length ∧
    (Config.ofData name rate voice hotword (some l) key maxh).wake_responses = l := by
  constructor <;> simp [Config.ofData, postInitWakeResponses]

/-- C5 counterexample: persisted state carrying an explicit empty
`wake_responses` array survives `__post_init__` unchanged, so the
constructed settings hold zero wake responses, contradicting the claimed
invariant that every startup configuration has at least one entry. -/
theorem C5_empty_persisted_counterexample :
    (Config.ofData "User" 170 0 "echo" (some []) "" 100).wake_responses.length
      = 0 := by decide

/-- C1 (amended): the claimed invariant fails — only `speak` trims.  What
holds instead, for `max_history ≥ 1`: a `speak` whose utterance completes
leaves the history with at most `max_history` entries whatever its length
was before (the trim runs unconditionally after a successful utterance, so
a completed speak restores the bound from any state), and a completed
speak from a list holding exactly `max_history` entries drops the oldest;
a wake interaction whose acknowledgement completes leaves at most
`max_history + 1` entries, because the user-command append in `listen`
performs no trim; and a wake interaction whose acknowledgement speak
faults performs no trim at all and grows the history by exactly one from
any length — so neither `max_history` nor `max_history + 1` bounds
speak-and-listen sequences under a faulting sink. -/
theorem C1_history_bounds (s : EchoState) (text : String)
    (emotion : Option String) (now : Nat) (u ack : String)
    (t2 : Option String) (c2 : String) (now1 now2 : Nat)
    (h1 : 1 ≤ s.config.max_history) :
    (speak s text emotion true now).history.length ≤ s.config.max_history ∧
    (s.history.length = s.config.max_history →
      (speak s text emotion true now).history =
        s.history.tail ++ [⟨now, Speaker.assistant, text, emotion⟩]) ∧
    (strContains (pyLower u) s.config.hotword = true →
      ((listen s (some u) ack t2 true now1 now2).1).history.length ≤
        s.config.max_history + 1) ∧
    (strContains (pyLower u) s.config.hotword = true →
      ((listen s (some u) ack (some c2) false now1 now2).1).history.length =
        s.history.length + 1) :=
  ⟨speak_history_length_restore s text emotion now h1,
   fun h => speak_drops_oldest s text emotion now h1 h,
   fun hw => listen_wake_ok_length s u ack t2 now1 now2 h1 hw,
   fun hw => listen_wake_fault_length s u ack c2 now1 now2 hw⟩

/-- C1 witness: at capacity one with one stored entry, a completed speak
stays at length one and drops the old entry, a healthy wake interaction
stays within two entries, and a faulty-acknowledgement wake interaction
adds exactly one entry. -/
theorem C1_witness :
    1 ≤ cappedState.config.max_history ∧
    ((speak cappedState "ok" none true 7).history.length ≤
        cappedState.config.max_history ∧
      (cappedState.history.length = cappedState.config.max_history →
        (speak cappedState "ok" none true 7).history =
          cappedState.history.tail ++ [⟨7, Speaker.assistant, "ok", none⟩]) ∧
      (strContains (pyLower "echo") cappedState.config.hotword = true →
        ((listen cappedState (some "echo") "Yes?" (some "hi") true 0 1).1).history.length ≤
          cappedState.config.max_history + 1) ∧
      (strContains (pyLower "echo") cappedState.config.hotword = true →
        ((listen cappedState (some "echo") "Yes?" (some "hello") false 0 1).1).history.length =
          cappedState.history.length + 1)) :=
  ⟨by decide,
   C1_history_bounds cappedState "ok" none 7 "echo" "Yes?" (some "hi")
     "hello" 0 1 (by decide)⟩

/-- C1 counterexample: with `max_history = 1` a single successful wake
interaction leaves two history entries — the acknowledgement appended by
`speak` (which trims) and the user command appended by `listen` (which
does not) — exceeding `max_history`; and a second wake interaction whose
acknowledgement speak faults appends a third entry with no trim anywhere,
exceeding `max_history + 1` as well, so the history grows past the claimed
bound under sequences of speak and listen operations. -/
theorem C1_listen_exceeds_bound :
    oneSlotState.config.max_history = 1 ∧
    ((listen oneSlotState (some "echo") "Yes?" (some "hello") true 0 1).1).history.length
      = 2 ∧
    ((listen (listen oneSlotState (some "echo") "Yes?" (some "hello") true 0 1).1
        (some "echo") "Yes?" (some "again") false 2 3).1).history.length
      = 3 := by decide

/-- C10 (amended): in a `listen` call where the wake word is detected, both
transcriptions succeed and the acknowledgement utterance completes without
a sink fault, the history ends with the assistant acknowledgement entry
immediately followed by the user command entry, and the command is
returned. -/
theorem C10_ack_precedes_command (s : EchoState) (u ack c2 : String)
    (now1 now2 : Nat)
    (h : strContains (pyLower u) s.config.hotword = true) :
    2 ≤ ((listen s (some u) ack (some c2) true now1 now2).1).history.length ∧
    ((listen s (some u) ack (some c2) true now1 now2).1).history.drop
      (((listen s (some u) ack (some c2) true now1 now2).1).history.length - 2) =
      [⟨now1, Speaker.assistant, ack, none⟩,
       ⟨now2, Speaker.user, pyLower c2, none⟩] ∧
    (listen s (some u) ack (some c2) true now1 now2).2 = some (pyLower c2) := by
  obtain ⟨p, hp⟩ := speak_history_concat s ack none now1
  have hl : ((listen s (some u) ack (some c2) true now1 now2).1).history =
      p ++ [⟨now1, Speaker.assistant, ack, none⟩,
            ⟨now2, Speaker.user, pyLower c2, none⟩] := by
    simp [listen, h, hp]
  refine ⟨?_, ?_, ?_⟩
  · rw [hl]; simp
  · rw [hl]
    have hlen : (p ++ [(⟨now1, Speaker.assistant, ack, none⟩ : HistoryEntry),
        ⟨now2, Speaker.user, pyLower c2, none⟩]).length - 2 = p.length := by
      simp
    rw [hlen]
    exact List.drop_left p _
  · simp [listen, h]

/-- C10 witness: a wake interaction with a healthy sink ends with the
acknowledgement entry directly before the user command entry. -/
theorem C10_witness :
    strContains (pyLower "hey echo") sampleState.config.hotword = true ∧
    2 ≤ ((listen sampleState (some "hey echo") "Yes?" (some "What Time")
        true 0 1).1).history.length ∧
    ((listen sampleState (some "hey echo") "Yes?" (some "What Time")
        true 0 1).1).history.drop
      (((listen sampleState (some "hey echo") "Yes?" (some "What Time")
        true 0 1).1).history.length - 2) =
      [⟨0, Speaker.assistant, "Yes?", none⟩,
       ⟨1, Speaker.user, pyLower "What Time", none⟩] ∧
    (listen sampleState (some "hey echo") "Yes?" (some "What Time")
      true 0 1).2 = some (pyLower "What Time") :=
  ⟨by decide,
   C10_ack_precedes_command sampleState "hey echo" "Yes?" "What Time" 0 1
     (by decide)⟩

/-- C10 counterexample: when the sink faults during the acknowledgement,
the wake is detected and both transcriptions succeed, yet no assistant
entry is appended — the user command entry lands directly after an earlier
user entry, so it is not immediately preceded by an acknowledgement. -/
theorem C10_fault_counterexample :
    ((listen preState (some "echo") "Yes?" (some "hello") false 0 1).1).history =
      [⟨5, Speaker.user, "earlier", none⟩, ⟨1, Speaker.user, "hello", none⟩] ∧
    (listen preState (some "echo") "Yes?" (some "hello") false 0 1).2 =
      some "hello" := by decide

/-- C9: processing a command classified as Exit speaks the farewell
"Goodbye!", clears the `running` flag, and any continuation of the dispatch
loop from the resulting state performs zero further `listen` calls. -/
theorem C9_exit_stops_loop (s : EchoState) (c : String) (e : Env)
    (fuel : Nat) (envs : Nat → Env) (i : Nat)
    (h : classify c = some Intent.exit) :
    (process_command s c e).running = false ∧
    (process_command s c e).sinkSay = s.sinkSay ++ ["Goodbye!"] ∧
    (runLoop fuel envs i (process_command s c e)).2 = 0 := by
  have hp : process_command s c e = shutdown s e.ttsOk e.now := by
    simp [process_command, h]
  have hr : (shutdown s e.ttsOk e.now).running = false := by
    simp [shutdown]
  have hs : (shutdown s e.ttsOk e.now).sinkSay = s.sinkSay ++ ["Goodbye!"] := by
    simp [shutdown, speak_sinkSay]
  rw [hp]
  exact ⟨hr, hs, runLoop_stopped fuel envs i _ hr⟩

/-- C9 witness: "goodbye" classifies as Exit; processing it stops the loop,
which then performs no listen calls with fuel left over. -/
theorem C9_witness :
    classify "goodbye" = some Intent.exit ∧
    (process_command sampleState "goodbye" sampleEnv).running = false ∧
    (process_command sampleState "goodbye" sampleEnv).sinkSay =
      sampleState.sinkSay ++ ["Goodbye!"] ∧
    (runLoop 3 constEnv 0 (process_command sampleState "goodbye" sampleEnv)).2
      = 0 :=
  ⟨by decide,
   C9_exit_stops_loop sampleState "goodbye" sampleEnv 3 constEnv 0 (by decide)⟩

end Echo
